import Mathlib

/-!
Shallow embedding of the BMP280 sensor driver (bmp280_lib.h / bmp280_lib.cpp).

The driver is a C++ class over an STM32 HAL I2C transport.  We model:
  * machine integers: `int32_t`/`int64_t` values are `Int` together with
    explicit two's-complement wrapping (`wrap32`/`wrap64`) applied after every
    arithmetic operation, exactly where the C code computes in that width;
    `uint8_t`/`uint16_t` values are `Nat` with explicit `% 256` / `% 65536`;
  * C arithmetic right shift on signed values as floor division by a power of
    two (`asr`), left shift as multiplication (`shl`), C `/` on `int64_t` as
    `Int.tdiv` (truncation towards zero);
  * the I2C transport as a device register file with a register pointer and a
    status flag; every HAL call returns the transaction it issued, so driver
    operations produce a transaction trace alongside their results;
  * `double` results as `ℚ` (the C code only divides exact integer values by
    the constants 100.0 and 256.0).
-/

/-- Two's-complement wrap-around into the `int32_t` range. -/
def wrap32 (x : Int) : Int := (x + 2 ^ 31) % 2 ^ 32 - 2 ^ 31

/-- Two's-complement wrap-around into the `int64_t` range. -/
def wrap64 (x : Int) : Int := (x + 2 ^ 63) % 2 ^ 64 - 2 ^ 63

/-- C arithmetic (sign-preserving) right shift: floor division by `2 ^ n`. -/
def asr (x : Int) (n : Nat) : Int := Int.fdiv x (2 ^ n)

/-- C left shift on a signed value: multiplication by `2 ^ n`. -/
def shl (x : Int) (n : Nat) : Int := x * 2 ^ n

/-- Reinterpret a `uint16_t` bit pattern as the `int16_t` it encodes
(the C cast `int16_t(data)`). -/
def toInt16 (v : Nat) : Int := if v < 32768 then (v : Int) else (v : Int) - 65536

section Transport

/-- Status code returned by every HAL I2C call (`HAL_StatusTypeDef`). -/
inductive HALStatus : Type where
  | ok
  | halError
  | busy
  | timeout
  deriving DecidableEq

/-- One I2C transaction issued by the driver, as seen by the transport:
memory-mapped write/read (`HAL_I2C_Mem_Write`/`HAL_I2C_Mem_Read`) and raw
master transmit/receive (`HAL_I2C_Master_Transmit`/`HAL_I2C_Master_Receive`).
`dev` is the bus frame address (7-bit device address shifted left once). -/
inductive Txn : Type where
  | memWrite (dev reg : Nat) (data : List Nat)
  | memRead (dev reg count : Nat)
  | transmit (dev : Nat) (data : List Nat)
  | receive (dev count : Nat)
  deriving DecidableEq

/-- The I2C device: a byte-register file, the current register pointer
(set by a master transmit, auto-incremented by receives), and the status
every HAL call reports. -/
structure Device where
  regs : Nat → Nat
  ptr : Nat
  status : HALStatus

/-- The `count` consecutive bytes of the register file starting at `start`. -/
def readBytes (regs : Nat → Nat) (start : Nat) : Nat → List Nat
  | 0 => []
  | n + 1 => regs start % 256 :: readBytes regs (start + 1) n

/-- Store a byte list into the register file at consecutive addresses. -/
def writeBytes (regs : Nat → Nat) (start : Nat) : List Nat → (Nat → Nat)
  | [] => regs
  | b :: rest => writeBytes (fun a => if a = start then b % 256 else regs a) (start + 1) rest

/-- Result of a HAL call that only writes. -/
structure WriteOut where
  device : Device
  trace : List Txn
  status : HALStatus

/-- Result of a HAL call that returns bytes. -/
structure ReadOut where
  device : Device
  trace : List Txn
  bytes : List Nat
  status : HALStatus

/-- Model of `HAL_I2C_Mem_Write`: write `data` at register `reg`. -/
def halMemWrite (d : Device) (dev reg : Nat) (data : List Nat) : WriteOut :=
  ⟨{ d with regs := writeBytes d.regs reg data }, [Txn.memWrite dev reg data], d.status⟩

/-- Model of `HAL_I2C_Mem_Read`: read `count` bytes starting at register `reg`. -/
def halMemRead (d : Device) (dev reg count : Nat) : ReadOut :=
  ⟨d, [Txn.memRead dev reg count], readBytes d.regs reg count, d.status⟩

/-- Model of `HAL_I2C_Master_Transmit` of a register pointer: sets the device's
current register pointer to the transmitted byte. -/
def halTransmit (d : Device) (dev : Nat) (data : List Nat) : WriteOut :=
  ⟨{ d with ptr := data.headD d.ptr }, [Txn.transmit dev data], d.status⟩

/-- Model of `HAL_I2C_Master_Receive`: read `count` bytes from the current register
pointer, auto-incrementing it. -/
def halReceive (d : Device) (dev count : Nat) : ReadOut :=
  ⟨{ d with ptr := d.ptr + count }, [Txn.receive dev count], readBytes d.regs d.ptr count, d.status⟩

end Transport

/-- The driver instance state: the `bmp280` class members (device address,
calibration constants, stored fine temperature).  `dig_T1`/`dig_P1` are
`uint16_t` (`Nat`), the other calibration words are `int16_t` values (`Int`),
`t_fine` is `int32_t` (`Int`). -/
structure bmp280 where
  address : Nat
  dig_T1 : Nat
  dig_T2 : Int
  dig_T3 : Int
  dig_P1 : Nat
  dig_P2 : Int
  dig_P3 : Int
  dig_P4 : Int
  dig_P5 : Int
  dig_P6 : Int
  dig_P7 : Int
  dig_P8 : Int
  dig_P9 : Int
  t_fine : Int

/-- Result of one driver method: updated instance, updated device, the
transactions issued, and the returned value. -/
structure Out (α : Type) where
  driver : bmp280
  device : Device
  trace : List Txn
  value : α

namespace bmp280

/-- Model of `bmp280::settings`: build the control byte `(osrs_t << 5)|(osrs_p << 2)|mode`
(`uint8_t`, hence `% 256`) and write it to register 0xF4. -/
def settings (s : bmp280) (d : Device) (osrs_p osrs_t mode : Nat) : Out Unit :=
  let reg := ((osrs_t <<< 5) ||| (osrs_p <<< 2) ||| mode) % 256
  let w := halMemWrite d (s.address <<< 1) 0xf4 [reg]
  ⟨s, w.device, w.trace, ()⟩

/-- Model of `bmp280::setConfig`: write the standby/filter byte to register 0xF5. -/
def setConfig (s : bmp280) (d : Device) (t_sb : Nat) : Out Unit :=
  let w := halMemWrite d (s.address <<< 1) 0xf5 [t_sb % 256]
  ⟨s, w.device, w.trace, ()⟩

/-- Model of `bmp280::Reset`: write the magic byte 0xB6 to register 0xE0. -/
def Reset (s : bmp280) (d : Device) : Out Unit :=
  let w := halMemWrite d (s.address <<< 1) 0xe0 [0xb6]
  ⟨s, w.device, w.trace, ()⟩

/-- Model of `bmp280::conversionRunning`: read the status register 0xF3 and mask bit 3. -/
def conversionRunning (s : bmp280) (d : Device) : Out Nat :=
  let r := halMemRead d (s.address <<< 1) 0xf3 1
  ⟨s, r.device, r.trace, r.bytes.getD 0 0 &&& 0x08⟩

/-- Model of `bmp280::dataCopying`: read the status register 0xF3 and mask bit 3. -/
def dataCopying (s : bmp280) (d : Device) : Out Nat :=
  let r := halMemRead d (s.address <<< 1) 0xf3 1
  ⟨s, r.device, r.trace, r.bytes.getD 0 0 &&& 0x08⟩

/-- Model of `bmp280::read_id`: read the chip-id register 0xD0. -/
def read_id (s : bmp280) (d : Device) : Out Nat :=
  let r := halMemRead d (s.address <<< 1) 0xd0 1
  ⟨s, r.device, r.trace, r.bytes.getD 0 0⟩

/-- Model of `bmp280::readU16bit`: transmit the register pointer, receive two bytes,
assemble `uint16_t(buffer[1] << 8) | uint16_t(buffer[0])`. -/
def readU16bit (s : bmp280) (d : Device) (addr : Nat) : Out Nat :=
  let t := halTransmit d (s.address <<< 1) [addr % 256]
  let r := halReceive t.device (s.address <<< 1) 2
  let b0 := r.bytes.getD 0 0
  let b1 := r.bytes.getD 1 0
  ⟨s, r.device, t.trace ++ r.trace, ((b1 <<< 8) % 65536) ||| (b0 % 65536)⟩

/-- Model of `bmp280::readS16bit`: `readU16bit` reinterpreted as `int16_t`. -/
def readS16bit (s : bmp280) (d : Device) (addr : Nat) : Out Int :=
  let r := readU16bit s d addr
  ⟨s, r.device, r.trace, toInt16 r.value⟩

/-- Model of `bmp280::readCalibration`: twelve 16-bit reads at 0x88..0x9E populating
the calibration members. -/
def readCalibration (s : bmp280) (d : Device) : Out Unit :=
  let rT1 := readU16bit s d 0x88
  let rT2 := readS16bit s rT1.device 0x8a
  let rT3 := readS16bit s rT2.device 0x8c
  let rP1 := readU16bit s rT3.device 0x8e
  let rP2 := readS16bit s rP1.device 0x90
  let rP3 := readS16bit s rP2.device 0x92
  let rP4 := readS16bit s rP3.device 0x94
  let rP5 := readS16bit s rP4.device 0x96
  let rP6 := readS16bit s rP5.device 0x98
  let rP7 := readS16bit s rP6.device 0x9a
  let rP8 := readS16bit s rP7.device 0x9c
  let rP9 := readS16bit s rP8.device 0x9e
  ⟨{ s with
      dig_T1 := rT1.value, dig_T2 := rT2.value, dig_T3 := rT3.value,
      dig_P1 := rP1.value, dig_P2 := rP2.value, dig_P3 := rP3.value,
      dig_P4 := rP4.value, dig_P5 := rP5.value, dig_P6 := rP6.value,
      dig_P7 := rP7.value, dig_P8 := rP8.value, dig_P9 := rP9.value },
    rP9.device,
    rT1.trace ++ rT2.trace ++ rT3.trace ++ rP1.trace ++ rP2.trace ++ rP3.trace ++
      rP4.trace ++ rP5.trace ++ rP6.trace ++ rP7.trace ++ rP8.trace ++ rP9.trace,
    ()⟩

/-- Model of `bmp280::readTemp`: 3-byte burst from 0xFA, assembled as
`(buffer[0] << 12)|(buffer[1] << 4)|(buffer[2] >> 4)` into an `int32_t`. -/
def readTemp (s : bmp280) (d : Device) : Out Int :=
  let r := halMemRead d (s.address <<< 1) 0xfa 3
  let raw : Nat := (r.bytes.getD 0 0 <<< 12) ||| (r.bytes.getD 1 0 <<< 4) ||| (r.bytes.getD 2 0 >>> 4)
  ⟨s, r.device, r.trace, (raw : Int)⟩

/-- Model of `bmp280::readPressure`: 3-byte burst from 0xF7, same assembly. -/
def readPressure (s : bmp280) (d : Device) : Out Int :=
  let r := halMemRead d (s.address <<< 1) 0xf7 3
  let raw : Nat := (r.bytes.getD 0 0 <<< 12) ||| (r.bytes.getD 1 0 <<< 4) ||| (r.bytes.getD 2 0 >>> 4)
  ⟨s, r.device, r.trace, (raw : Int)⟩

/-- Model of `bmp280::readAll`: one 6-byte burst from 0xF7; pressure raw from bytes
0..2, temperature raw from bytes 3..5.  Value is `(temperature_raw, pressure_raw)`. -/
def readAll (s : bmp280) (d : Device) : Out (Int × Int) :=
  let r := halMemRead d (s.address <<< 1) 0xf7 6
  let temperature_raw : Nat :=
    (r.bytes.getD 3 0 <<< 12) ||| (r.bytes.getD 4 0 <<< 4) ||| (r.bytes.getD 5 0 >>> 4)
  let pressure_raw : Nat :=
    (r.bytes.getD 0 0 <<< 12) ||| (r.bytes.getD 1 0 <<< 4) ||| (r.bytes.getD 2 0 >>> 4)
  ⟨s, r.device, r.trace, ((temperature_raw : Int), (pressure_raw : Int))⟩

/-- Model of `bmp280::convertTemp`: the vendor integer temperature compensation in
`int32_t` arithmetic; stores `t_fine` and returns `temperature / 100.0`. -/
def convertTemp (s : bmp280) (temp_raw : Int) : bmp280 × ℚ :=
  let var1 := asr (wrap32 (wrap32 (asr temp_raw 3 - wrap32 (shl (s.dig_T1 : Int) 1)) * s.dig_T2)) 11
  let var2 := asr (wrap32 (asr (wrap32 (wrap32 (asr temp_raw 4 - (s.dig_T1 : Int)) *
    wrap32 (asr temp_raw 4 - (s.dig_T1 : Int)))) 12 * s.dig_T3)) 14
  let tfine := wrap32 (var1 + var2)
  let temperature := asr (wrap32 (wrap32 (tfine * 5) + 128)) 8
  ({ s with t_fine := tfine }, (temperature : ℚ) / 100)

/-- Model of `bmp280::convertPressure`: the vendor integer pressure compensation in
`int64_t` arithmetic using the stored `t_fine`; returns `p / 256.0`, or `0.0`
when the derived denominator is zero. -/
def convertPressure (s : bmp280) (pres_raw : Int) : ℚ :=
  let var1a := wrap64 (s.t_fine - 128000)
  let var2a := wrap64 (wrap64 (var1a * var1a) * s.dig_P6)
  let var2b := wrap64 (var2a + wrap64 (shl (wrap64 (var1a * s.dig_P5)) 17))
  let var2c := wrap64 (var2b + wrap64 (shl s.dig_P4 35))
  let var1b := wrap64 (asr (wrap64 (wrap64 (var1a * var1a) * s.dig_P3)) 8 +
    wrap64 (shl (wrap64 (var1a * s.dig_P2)) 12))
  let var1c := asr (wrap64 (wrap64 (shl 1 47 + var1b) * (s.dig_P1 : Int))) 33
  if var1c = 0 then 0
  else
    let pa := wrap64 (1048576 - pres_raw)
    let pb := wrap64 (Int.tdiv (wrap64 (wrap64 (wrap64 (shl pa 31) - var2c) * 3125)) var1c)
    let var1d := asr (wrap64 (wrap64 (s.dig_P9 * asr pb 13) * asr pb 13)) 25
    let var2d := asr (wrap64 (s.dig_P8 * pb)) 19
    let pc := wrap64 (asr (wrap64 (wrap64 (pb + var1d) + var2d)) 8 + wrap64 (shl s.dig_P7 4))
    (pc : ℚ) / 256

/-- The value `var1` holds after step 6 of the pressure compensation — the
divisor tested against zero by `bmp280::convertPressure`. -/
def pressureDenominator (s : bmp280) : Int :=
  let var1a := wrap64 (s.t_fine - 128000)
  let var1b := wrap64 (asr (wrap64 (wrap64 (var1a * var1a) * s.dig_P3)) 8 +
    wrap64 (shl (wrap64 (var1a * s.dig_P2)) 12))
  asr (wrap64 (wrap64 (shl 1 47 + var1b) * (s.dig_P1 : Int))) 33

/-- Model of `bmp280::getTemperature`: read raw temperature, convert. -/
def getTemperature (s : bmp280) (d : Device) : Out ℚ :=
  let r := readTemp s d
  let c := convertTemp s r.value
  ⟨c.1, r.device, r.trace, c.2⟩

/-- Model of `bmp280::getPressure`: read raw pressure, convert with the stored `t_fine`. -/
def getPressure (s : bmp280) (d : Device) : Out ℚ :=
  let r := readPressure s d
  ⟨s, r.device, r.trace, convertPressure s r.value⟩

/-- Model of `bmp280::getTempPressure`: one `readAll` burst, temperature conversion
first, then pressure conversion on the updated instance. -/
def getTempPressure (s : bmp280) (d : Device) : Out (ℚ × ℚ) :=
  let r := readAll s d
  let c := convertTemp s r.value.1
  ⟨c.1, r.device, r.trace, (c.2, convertPressure c.1 r.value.2)⟩

end bmp280

/-- Spec §4.3 temperature path, transcribed from the specification text:
`compensateTemperature(raw) -> (celsius, t_fine)` in signed 32-bit arithmetic
with arithmetic right shifts. -/
def compensateTemperature (dig_T1 : Nat) (dig_T2 dig_T3 : Int) (raw : Int) : ℚ × Int :=
  let var1 := asr (wrap32 (wrap32 (asr raw 3 - wrap32 (shl (dig_T1 : Int) 1)) * dig_T2)) 11
  let var2 := asr (wrap32 (asr (wrap32 (wrap32 (asr raw 4 - (dig_T1 : Int)) *
    wrap32 (asr raw 4 - (dig_T1 : Int)))) 12 * dig_T3)) 14
  let tfine := wrap32 (var1 + var2)
  ((asr (wrap32 (wrap32 (tfine * 5) + 128)) 8 : Int) / 100, tfine)

/-- Spec §4.3 pressure path, transcribed from the specification text:
`compensatePressure(raw, t_fine) -> pascals` in signed 64-bit arithmetic. -/
def compensatePressure (dig_P1 : Nat) (dig_P2 dig_P3 dig_P4 dig_P5 dig_P6 dig_P7 dig_P8 dig_P9 : Int)
    (tfine : Int) (raw : Int) : ℚ :=
  let var1a := wrap64 (tfine - 128000)
  let var2a := wrap64 (wrap64 (var1a * var1a) * dig_P6)
  let var2b := wrap64 (var2a + wrap64 (shl (wrap64 (var1a * dig_P5)) 17))
  let var2c := wrap64 (var2b + wrap64 (shl dig_P4 35))
  let var1b := wrap64 (asr (wrap64 (wrap64 (var1a * var1a) * dig_P3)) 8 +
    wrap64 (shl (wrap64 (var1a * dig_P2)) 12))
  let var1c := asr (wrap64 (wrap64 (shl 1 47 + var1b) * (dig_P1 : Int))) 33
  if var1c = 0 then 0
  else
    let pa := wrap64 (1048576 - raw)
    let pb := wrap64 (Int.tdiv (wrap64 (wrap64 (wrap64 (shl pa 31) - var2c) * 3125)) var1c)
    let var1d := asr (wrap64 (wrap64 (dig_P9 * asr pb 13) * asr pb 13)) 25
    let var2d := asr (wrap64 (dig_P8 * pb)) 19
    let pc := wrap64 (asr (wrap64 (wrap64 (pb + var1d) + var2d)) 8 + wrap64 (shl dig_P7 4))
    (pc : ℚ) / 256

/-- The 20-bit raw sample assembly of the spec:
`(b0 << 12) | (b1 << 4) | (b2 >> 4)`. -/
def rawAssemble (b0 b1 b2 : Nat) : Nat := (b0 <<< 12) ||| (b1 <<< 4) ||| (b2 >>> 4)

/-- The 16-bit little-endian word held by the device at registers `r`, `r + 1`:
`(byte1 << 8) | byte0`. -/
def calibU16 (d : Device) (r : Nat) : Nat := ((d.regs (r + 1) % 256) <<< 8) ||| (d.regs r % 256)

/-- The word `calibU16` reinterpreted as a signed 16-bit value. -/
def calibS16 (d : Device) (r : Nat) : Int := toInt16 (calibU16 d r)

/-- A concrete driver instance (datasheet example calibration values). -/
def sampleDriver : bmp280 :=
  { address := 0x76
    dig_T1 := 27504, dig_T2 := 26435, dig_T3 := -1000
    dig_P1 := 36477, dig_P2 := -10685, dig_P3 := 3024
    dig_P4 := 2855, dig_P5 := 140, dig_P6 := -7
    dig_P7 := 15500, dig_P8 := -14600, dig_P9 := 6000
    t_fine := 0 }

/-- A concrete driver instance whose calibration is all zero (so the derived
pressure denominator is zero). -/
def zeroCalib : bmp280 :=
  { address := 0x76
    dig_T1 := 0, dig_T2 := 0, dig_T3 := 0
    dig_P1 := 0, dig_P2 := 0, dig_P3 := 0
    dig_P4 := 0, dig_P5 := 0, dig_P6 := 0
    dig_P7 := 0, dig_P8 := 0, dig_P9 := 0
    t_fine := 0 }

/-- A concrete device whose register file holds its address' low byte. -/
def sampleDevice : Device :=
  { regs := fun a => a % 256, ptr := 0, status := HALStatus.ok }

/-- C1: `convertTemp` computes the claimed `var1`/`var2` in signed 32-bit
arithmetic with arithmetic right shifts, stores `t_fine = var1 + var2`, and
returns `((t_fine * 5 + 128) >> 8) / 100.0`. -/
theorem convertTemp_follows_spec (s : bmp280) (raw : Int) :
    bmp280.convertTemp s raw =
      ({ s with t_fine := (compensateTemperature s.dig_T1 s.dig_T2 s.dig_T3 raw).2 },
        (compensateTemperature s.dig_T1 s.dig_T2 s.dig_T3 raw).1) := rfl

/-- C2: `convertPressure` computes the vendor signed 64-bit sequence of the
spec on the stored `t_fine` and returns `p / 256.0`. -/
theorem convertPressure_follows_spec (s : bmp280) (raw : Int) :
    bmp280.convertPressure s raw =
      compensatePressure s.dig_P1 s.dig_P2 s.dig_P3 s.dig_P4 s.dig_P5 s.dig_P6
        s.dig_P7 s.dig_P8 s.dig_P9 s.t_fine raw := rfl

/-- C3: when the derived denominator (`var1` after step 6) is zero,
`convertPressure` returns exactly 0, for every raw input. -/
theorem convertPressure_zero_denominator (s : bmp280) (raw : Int)
    (h : bmp280.pressureDenominator s = 0) : bmp280.convertPressure s raw = 0 := by
  simp only [bmp280.convertPressure]
  split
  · rfl
  · next hne => exact absurd h hne

/-- C3 witness: the all-zero calibration has a zero derived denominator and
`convertPressure` returns 0 on it. -/
theorem convertPressure_zero_denominator_witness :
    bmp280.pressureDenominator zeroCalib = 0 ∧ bmp280.convertPressure zeroCalib 99 = 0 :=
  ⟨by decide, convertPressure_zero_denominator zeroCalib 99 (by decide)⟩

/-- A byte shifted left by 8 already fits in 16 bits, so the `uint16_t`
truncation in `readU16bit` is the identity. -/
theorem shiftLeft8_mod (b : Nat) : ((b % 256) <<< 8) % 65536 = (b % 256) <<< 8 :=
  Nat.mod_eq_of_lt (by rw [Nat.shiftLeft_eq]; omega)

/-- A byte is unchanged by the `uint16_t` truncation. -/
theorem byte_mod_65536 (b : Nat) : (b % 256) % 65536 = b % 256 :=
  Nat.mod_eq_of_lt (by omega)

/-- Lemma: `readU16bit` leaves the register file unchanged and the register pointer
two past the (byte-masked) requested address. -/
theorem readU16bit_device (s : bmp280) (d : Device) (addr : Nat) :
    (bmp280.readU16bit s d addr).device = { d with ptr := addr % 256 + 2 } := rfl

/-- Same device effect for `readS16bit`. -/
theorem readS16bit_device (s : bmp280) (d : Device) (addr : Nat) :
    (bmp280.readS16bit s d addr).device = { d with ptr := addr % 256 + 2 } := rfl

/-- Lemma: `readU16bit` returns the little-endian word at the (byte-masked)
requested register address. -/
theorem readU16bit_value (s : bmp280) (d : Device) (addr : Nat) :
    (bmp280.readU16bit s d addr).value = calibU16 d (addr % 256) := by
  show (((d.regs (addr % 256 + 1) % 256) <<< 8) % 65536) |||
      ((d.regs (addr % 256) % 256) % 65536) = calibU16 d (addr % 256)
  rw [shiftLeft8_mod, byte_mod_65536]; rfl

/-- Lemma: `readS16bit` returns that word reinterpreted as `int16_t`. -/
theorem readS16bit_value (s : bmp280) (d : Device) (addr : Nat) :
    (bmp280.readS16bit s d addr).value = calibS16 d (addr % 256) := by
  show toInt16 (bmp280.readU16bit s d addr).value = calibS16 d (addr % 256)
  rw [readU16bit_value]; rfl

/-- C4: `getTempPressure` issues exactly one 6-byte burst read at the
pressure register block 0xF7, takes the raw pressure from bytes 0..2 and the
raw temperature from bytes 3..5, converts temperature first, and converts
pressure on the instance state just produced by that temperature conversion. -/
theorem getTempPressure_single_burst (s : bmp280) (d : Device) :
    (bmp280.getTempPressure s d).trace = [Txn.memRead (s.address <<< 1) 0xf7 6] ∧
    (bmp280.getTempPressure s d).value.1 =
      (bmp280.convertTemp s
        ((rawAssemble (d.regs 0xfa % 256) (d.regs 0xfb % 256) (d.regs 0xfc % 256) : Nat) : Int)).2 ∧
    (bmp280.getTempPressure s d).value.2 =
      bmp280.convertPressure
        (bmp280.convertTemp s
          ((rawAssemble (d.regs 0xfa % 256) (d.regs 0xfb % 256) (d.regs 0xfc % 256) : Nat) : Int)).1
        ((rawAssemble (d.regs 0xf7 % 256) (d.regs 0xf8 % 256) (d.regs 0xf9 % 256) : Nat) : Int) ∧
    (bmp280.getTempPressure s d).driver =
      (bmp280.convertTemp s
        ((rawAssemble (d.regs 0xfa % 256) (d.regs 0xfb % 256) (d.regs 0xfc % 256) : Nat) : Int)).1 :=
  ⟨rfl, rfl, rfl, rfl⟩

/-- C5: `readCalibration` issues twelve pointer-write + 2-byte-receive register
reads, at 0x88, 0x8A, ..., 0x9E in order, and assigns the little-endian word at
each address to the corresponding calibration member, with no cross-assignment. -/
theorem readCalibration_layout (s : bmp280) (d : Device) :
    (bmp280.readCalibration s d).trace =
      [Txn.transmit (s.address <<< 1) [0x88], Txn.receive (s.address <<< 1) 2,
        Txn.transmit (s.address <<< 1) [0x8a], Txn.receive (s.address <<< 1) 2,
        Txn.transmit (s.address <<< 1) [0x8c], Txn.receive (s.address <<< 1) 2,
        Txn.transmit (s.address <<< 1) [0x8e], Txn.receive (s.address <<< 1) 2,
        Txn.transmit (s.address <<< 1) [0x90], Txn.receive (s.address <<< 1) 2,
        Txn.transmit (s.address <<< 1) [0x92], Txn.receive (s.address <<< 1) 2,
        Txn.transmit (s.address <<< 1) [0x94], Txn.receive (s.address <<< 1) 2,
        Txn.transmit (s.address <<< 1) [0x96], Txn.receive (s.address <<< 1) 2,
        Txn.transmit (s.address <<< 1) [0x98], Txn.receive (s.address <<< 1) 2,
        Txn.transmit (s.address <<< 1) [0x9a], Txn.receive (s.address <<< 1) 2,
        Txn.transmit (s.address <<< 1) [0x9c], Txn.receive (s.address <<< 1) 2,
        Txn.transmit (s.address <<< 1) [0x9e], Txn.receive (s.address <<< 1) 2] ∧
    (bmp280.readCalibration s d).driver.dig_T1 = calibU16 d 0x88 ∧
    (bmp280.readCalibration s d).driver.dig_T2 = calibS16 d 0x8a ∧
    (bmp280.readCalibration s d).driver.dig_T3 = calibS16 d 0x8c ∧
    (bmp280.readCalibration s d).driver.dig_P1 = calibU16 d 0x8e ∧
    (bmp280.readCalibration s d).driver.dig_P2 = calibS16 d 0x90 ∧
    (bmp280.readCalibration s d).driver.dig_P3 = calibS16 d 0x92 ∧
    (bmp280.readCalibration s d).driver.dig_P4 = calibS16 d 0x94 ∧
    (bmp280.readCalibration s d).driver.dig_P5 = calibS16 d 0x96 ∧
    (bmp280.readCalibration s d).driver.dig_P6 = calibS16 d 0x98 ∧
    (bmp280.readCalibration s d).driver.dig_P7 = calibS16 d 0x9a ∧
    (bmp280.readCalibration s d).driver.dig_P8 = calibS16 d 0x9c ∧
    (bmp280.readCalibration s d).driver.dig_P9 = calibS16 d 0x9e := by
  refine ⟨rfl, ?_, ?_, ?_, ?_, ?_, ?_, ?_, ?_, ?_, ?_, ?_, ?_⟩ <;>
    simp only [bmp280.readCalibration, readU16bit_value, readS16bit_value,
      readU16bit_device, readS16bit_device, calibU16, calibS16]

/-- C6: `settings` writes exactly one byte to the control register 0xF4,
namely `(osrs_t << 5)|(osrs_p << 2)|mode` as a `uint8_t`; whenever the
arguments are in-range field codes (in particular the boundary oversampling
codes 0, 5, 7 and the modes 0, 1, 3) the byte equals the expression itself. -/
theorem settings_control_byte :
    (∀ (s : bmp280) (d : Device) (osrs_p osrs_t mode : Nat),
      (bmp280.settings s d osrs_p osrs_t mode).trace =
        [Txn.memWrite (s.address <<< 1) 0xf4
          [((osrs_t <<< 5) ||| (osrs_p <<< 2) ||| mode) % 256]]) ∧
    (∀ osrs_t < 8, ∀ osrs_p < 8, ∀ mode < 4,
      ((osrs_t <<< 5) ||| (osrs_p <<< 2) ||| mode) % 256 =
        (osrs_t <<< 5) ||| (osrs_p <<< 2) ||| mode) :=
  ⟨fun _ _ _ _ _ => rfl, by decide⟩

/-- C6 witness: at the boundary codes `osrs_p = 5`, `osrs_t = 7`, `mode = 3`
the written byte is exactly `(7 << 5)|(5 << 2)|3`. -/
theorem settings_control_byte_witness :
    (bmp280.settings sampleDriver sampleDevice 5 7 3).trace =
      [Txn.memWrite (sampleDriver.address <<< 1) 0xf4 [(7 <<< 5) ||| (5 <<< 2) ||| 3]] := by
  rw [settings_control_byte.1 sampleDriver sampleDevice 5 7 3,
    settings_control_byte.2 7 (by norm_num) 5 (by norm_num) 3 (by norm_num)]

/-- C7: `readTemp` and `readPressure` both assemble the three bytes delivered
by the transport as `(b0 << 12)|(b1 << 4)|(b2 >> 4)` (from their respective
register blocks 0xFA and 0xF7), and on the triplet `(0xAB, 0xCD, 0xE0)` that
assembly yields exactly 0xABCDE. -/
theorem raw_sample_assembly (s : bmp280) (d : Device) :
    (bmp280.readTemp s d).value =
      ((rawAssemble (d.regs 0xfa % 256) (d.regs 0xfb % 256) (d.regs 0xfc % 256) : Nat) : Int) ∧
    (bmp280.readPressure s d).value =
      ((rawAssemble (d.regs 0xf7 % 256) (d.regs 0xf8 % 256) (d.regs 0xf9 % 256) : Nat) : Int) ∧
    rawAssemble 0xab 0xcd 0xe0 = 0xabcde :=
  ⟨rfl, rfl, by decide⟩

/-- C9: `conversionRunning` and `dataCopying` are extensionally equal: both
read status register 0xF3 and mask bit 3 (0x08), so they agree on every
status byte, state and trace. -/
theorem status_queries_equal (s : bmp280) (d : Device) :
    bmp280.conversionRunning s d = bmp280.dataCopying s d ∧
    (bmp280.conversionRunning s d).trace = [Txn.memRead (s.address <<< 1) 0xf3 1] ∧
    (bmp280.conversionRunning s d).value = (d.regs 0xf3 % 256) &&& 0x08 :=
  ⟨rfl, rfl, rfl⟩

/-- C8 counterexample: transport failures are not surfaced.  With identical
register contents, a run whose every HAL call reports `timeout` returns the
same values and issues the same transactions as a run whose calls all
succeed — the caller cannot observe the failure, so it is not "returned
verbatim to the caller". -/
theorem transport_error_not_surfaced :
    (bmp280.readU16bit sampleDriver { sampleDevice with status := HALStatus.timeout } 0x88).value =
      (bmp280.readU16bit sampleDriver sampleDevice 0x88).value ∧
    (bmp280.settings sampleDriver { sampleDevice with status := HALStatus.timeout } 1 3 3).trace =
      (bmp280.settings sampleDriver sampleDevice 1 3 3).trace ∧
    (bmp280.getTemperature sampleDriver { sampleDevice with status := HALStatus.timeout }).value =
      (bmp280.getTemperature sampleDriver sampleDevice).value :=
  ⟨rfl, rfl, rfl⟩

/-- C8 as amended: no register operation surfaces a transport I/O error — the
driver ignores the status of every transport call, returning values computed
from the buffer contents and issuing the same fixed transaction sequence (no
retry, no recovery) whether the transport fails or succeeds. -/
theorem transport_error_ignored (s : bmp280) (d : Device) (st : HALStatus)
    (addr osrs_p osrs_t mode t_sb : Nat) :
    (bmp280.readU16bit s { d with status := st } addr).value =
      (bmp280.readU16bit s d addr).value ∧
    (bmp280.readU16bit s { d with status := st } addr).trace =
      [Txn.transmit (s.address <<< 1) [addr % 256], Txn.receive (s.address <<< 1) 2] ∧
    (bmp280.settings s { d with status := st } osrs_p osrs_t mode).trace =
      (bmp280.settings s d osrs_p osrs_t mode).trace ∧
    (bmp280.setConfig s { d with status := st } t_sb).trace =
      (bmp280.setConfig s d t_sb).trace ∧
    (bmp280.conversionRunning s { d with status := st }).value =
      (bmp280.conversionRunning s d).value ∧
    (bmp280.read_id s { d with status := st }).value = (bmp280.read_id s d).value ∧
    (bmp280.readCalibration s { d with status := st }).driver =
      (bmp280.readCalibration s d).driver ∧
    (bmp280.readAll s { d with status := st }).value = (bmp280.readAll s d).value ∧
    (bmp280.getTempPressure s { d with status := st }).value =
      (bmp280.getTempPressure s d).value :=
  ⟨rfl, rfl, rfl, rfl, rfl, rfl, rfl, rfl, rfl⟩

/-- C10: `convertTemp` is the only operation writing `t_fine` (it changes
nothing but `t_fine`); every other operation returns the instance state with
`t_fine` untouched, and a standalone `getPressure` computes its value by
`convertPressure` on the current stored `t_fine`. -/
theorem t_fine_frame (s : bmp280) (d : Device) (raw : Int)
    (addr osrs_p osrs_t mode t_sb : Nat) :
    (bmp280.convertTemp s raw).1 =
      { s with t_fine := (bmp280.convertTemp s raw).1.t_fine } ∧
    (bmp280.settings s d osrs_p osrs_t mode).driver = s ∧
    (bmp280.setConfig s d t_sb).driver = s ∧
    (bmp280.Reset s d).driver = s ∧
    (bmp280.conversionRunning s d).driver = s ∧
    (bmp280.dataCopying s d).driver = s ∧
    (bmp280.read_id s d).driver = s ∧
    (bmp280.readU16bit s d addr).driver = s ∧
    (bmp280.readS16bit s d addr).driver = s ∧
    (bmp280.readTemp s d).driver = s ∧
    (bmp280.readPressure s d).driver = s ∧
    (bmp280.readAll s d).driver = s ∧
    (bmp280.readCalibration s d).driver.t_fine = s.t_fine ∧
    (bmp280.getPressure s d).driver = s ∧
    (bmp280.getPressure s d).value =
      bmp280.convertPressure s (bmp280.readPressure s d).value ∧
    (bmp280.getTemperature s d).driver =
      (bmp280.convertTemp s (bmp280.readTemp s d).value).1 :=
  ⟨rfl, rfl, rfl, rfl, rfl, rfl, rfl, rfl, rfl, rfl, rfl, rfl, rfl, rfl, rfl, rfl⟩
